import Mathlib

/-!
Verification development for the vault-react-demo-app server-side
change-detection and broadcast subsystem.

The embedding models, from the repository's JavaScript sources:
  * `readSecretsFromDirectory` of the evolved server (src/unnamed/part_000,
    lines 51-94), which stores `lastModified` as `stats.mtime.toISOString()`;
  * `readSecretsFromDirectory` of the original server (src/app/server.js,
    lines 29-67), which stores `lastModified` as the raw `stats.mtime` Date;
  * `addActivityEntry` and the bounded in-memory activity log
    (src/unnamed/part_000, lines 22-41);
  * the chokidar watcher handlers for `add`/`change`/`unlink`
    (src/unnamed/part_000, lines 257-311);
  * the fast content-polling strategy `pollSecrets`
    (src/unnamed/part_000, lines 358-387);
  * the inode monitor `monitorInodes` (src/unnamed/part_000, lines 456-503);
  * the socket connection handler (src/unnamed/part_000, lines 172-191).

A directory state is a list of directory entries as the `fs` API exposes
them to this code: `readdirSync` order, a `statSync` result that may throw
(dangling symlink, permission), and a `readFileSync` result that may throw.
JavaScript exceptions are modelled with `Except`; `try`/`catch` blocks are
modelled by the places where an `Except.error` is converted back to a value.
-/

/-- Milliseconds-precision model of JavaScript `Date.prototype.toISOString`
for non-negative epoch times (every timestamp this program handles is
post-1970). Computed with the standard civil-from-days conversion. -/
def pad2 (n : Nat) : String :=
  if n < 10 then "0" ++ toString n else toString n

def pad3 (n : Nat) : String :=
  if n < 10 then "00" ++ toString n
  else if n < 100 then "0" ++ toString n
  else toString n

def pad4 (n : Nat) : String :=
  if n < 10 then "000" ++ toString n
  else if n < 100 then "00" ++ toString n
  else if n < 1000 then "0" ++ toString n
  else toString n

/-- Gregorian civil date (year, month, day) from a count of days since
1970-01-01, for non-negative day counts. -/
def civilFromDays (days : Nat) : Nat × Nat × Nat :=
  let z := days + 719468
  let era := z / 146097
  let doe := z % 146097
  let yoe := (doe - doe / 1460 + doe / 36524 - doe / 146096) / 365
  let y := yoe + era * 400
  let doy := doe - (365 * yoe + yoe / 4 - yoe / 100)
  let mp := (5 * doy + 2) / 153
  let d := doy - (153 * mp + 2) / 5 + 1
  let m := if mp < 10 then mp + 3 else mp - 9
  let y := if m ≤ 2 then y + 1 else y
  (y, m, d)

def jsToISOString (ms : Nat) : String :=
  let days := ms / 86400000
  let msod := ms % 86400000
  let hh := msod / 3600000
  let mi := msod % 3600000 / 60000
  let ss := msod % 60000 / 1000
  let mss := msod % 1000
  let ymd := civilFromDays days
  pad4 ymd.1 ++ "-" ++ pad2 ymd.2.1 ++ "-" ++ pad2 ymd.2.2 ++ "T" ++
    pad2 hh ++ ":" ++ pad2 mi ++ ":" ++ pad2 ss ++ "." ++ pad3 mss ++ "Z"

/-- A JavaScript value stored in a secret entry's `lastModified` field:
either a raw `Date` (identified by its epoch milliseconds), as the original
server stores, or the ISO-8601 string form, as the evolved server stores. -/
inductive TimeRepr
  | date (ms : Nat)
  | iso (s : String)
deriving DecidableEq, Repr

/-- The fields of an `fs.Stats` result that this program consumes
(`statSync` follows symlinks, so these describe the resolved target). -/
structure Stats where
  isFile : Bool
  size : Nat
  mtimeMs : Nat
  ino : Nat
deriving DecidableEq, Repr

/-- One name in the watched directory, as the `fs` calls used by the server
observe it. `stats = none` models `statSync` throwing (e.g. a dangling
symlink); `readErr = some msg` models `readFileSync` throwing with message
`msg`; `content` is the text `readFileSync` yields when it succeeds.
`isSymlink` records the `lstat` view (it is not consulted by the reader,
which follows symlinks, but is part of the directory's real state). -/
structure DirEntry where
  name : String
  isSymlink : Bool
  stats : Option Stats
  content : String
  readErr : Option String
deriving DecidableEq, Repr

/-- The watched directory: `none` when `fs.existsSync(SECRETS_DIR)` is
false, otherwise the `readdirSync` listing. -/
abbrev DirState := Option (List DirEntry)

/-- One secret entry of a snapshot, as built by `readSecretsFromDirectory`.
The JS object carries `error: true` only in the failure case; here the
flag is explicit, `false` meaning the field is absent. -/
structure SecretEntry where
  content : String
  lastModified : TimeRepr
  size : Nat
  error : Bool
deriving DecidableEq, Repr

/-- A snapshot: the `secrets` object in JS insertion order. -/
abbrev Snapshot := List (String × SecretEntry)

/-- JavaScript exceptions that this subsystem can raise. `statError` is the
`statSync` throw inside the reader's `forEach` (caught by the reader's
directory-level `try`); `typeError` is an uncaught `TypeError`. -/
inductive JsError
  | statError (name : String)
  | typeError (msg : String)
deriving DecidableEq, Repr

/-- Drop leading characters satisfying `Char.isWhitespace`. -/
def dropLeadingWs : List Char → List Char
  | [] => []
  | c :: cs => if c.isWhitespace then dropLeadingWs cs else c :: cs

/-- Model of JavaScript `String.prototype.trim`: strip whitespace (the
ASCII whitespace JS trims: space, tab, newline, carriage return) from both
ends. Defined structurally so that it evaluates by kernel reduction. -/
def jsTrim (s : String) : String :=
  String.mk ((dropLeadingWs ((dropLeadingWs s.data).reverse)).reverse)

/-- The `files.forEach` body of the evolved `readSecretsFromDirectory`
(src/unnamed/part_000 lines 58-85). `statSync` is called outside the inner
`try`, so a stat failure aborts the whole `forEach`; the entries
accumulated so far survive (the `secrets` object is mutated in place) and
the error is reported to the enclosing `try`. A content-read failure is
caught by the inner `try` and recorded as an error entry. Non-files are
skipped. `lastModified` is `stats.mtime.toISOString()`. -/
def scanSecretEntries : List DirEntry → List (String × SecretEntry) × Option JsError
  | [] => ([], none)
  | e :: rest =>
    match e.stats with
    | none => ([], some (JsError.statError e.name))
    | some st =>
      if st.isFile then
        let entry : SecretEntry :=
          match e.readErr with
          | none =>
            { content := jsTrim e.content
              lastModified := TimeRepr.iso (jsToISOString st.mtimeMs)
              size := st.size
              error := false }
          | some msg =>
            { content := "Error reading file: " ++ msg
              lastModified := TimeRepr.iso (jsToISOString st.mtimeMs)
              size := st.size
              error := true }
        let tail := scanSecretEntries rest
        ((e.name, entry) :: tail.1, tail.2)
      else
        scanSecretEntries rest

/-- Evolved `readSecretsFromDirectory` (src/unnamed/part_000 lines 51-94):
missing directory yields `{}`; the directory-level `try`/`catch` swallows a
`statSync` throw and returns the entries accumulated before it. -/
def readSecretsFromDirectory (d : DirState) : Snapshot :=
  match d with
  | none => []
  | some files => (scanSecretEntries files).1

/-- The `files.forEach` body of the original `readSecretsFromDirectory`
(src/app/server.js lines 36-58). Identical control flow to the evolved
version; `lastModified` is the raw `stats.mtime` Date. -/
def scanSecretEntriesOrig : List DirEntry → List (String × SecretEntry) × Option JsError
  | [] => ([], none)
  | e :: rest =>
    match e.stats with
    | none => ([], some (JsError.statError e.name))
    | some st =>
      if st.isFile then
        let entry : SecretEntry :=
          match e.readErr with
          | none =>
            { content := jsTrim e.content
              lastModified := TimeRepr.date st.mtimeMs
              size := st.size
              error := false }
          | some msg =>
            { content := "Error reading file: " ++ msg
              lastModified := TimeRepr.date st.mtimeMs
              size := st.size
              error := true }
        let tail := scanSecretEntriesOrig rest
        ((e.name, entry) :: tail.1, tail.2)
      else
        scanSecretEntriesOrig rest

/-- Original `readSecretsFromDirectory` (src/app/server.js lines 29-67). -/
def readSecretsFromDirectoryOrig (d : DirState) : Snapshot :=
  match d with
  | none => []
  | some files => (scanSecretEntriesOrig files).1

/-- One record of the in-memory activity log (src/unnamed/part_000 lines
26-33). The JS `id` is `Date.now() + Math.random()`; the random tie-break
is modelled by the caller-supplied `rand`. `timestamp` is
`new Date().toISOString()`. -/
structure ActivityEntry where
  id : Nat
  timestamp : String
  action : String
  file : String
  secretCount : Nat
deriving DecidableEq, Repr

def MAX_ACTIVITY_ENTRIES : Nat := 100

/-- `addActivityEntry(action, file, secrets)` (src/unnamed/part_000 lines
26-41): builds the entry, `unshift`s it onto the log, caps the log with
`slice(0, MAX_ACTIVITY_ENTRIES)` when it exceeds the maximum, and returns
the entry. `now` is `Date.now()` in epoch milliseconds. -/
def addActivityEntry (now rand : Nat) (action file : String) (secrets : Snapshot)
    (activityLog : List ActivityEntry) : ActivityEntry × List ActivityEntry :=
  let entry : ActivityEntry :=
    { id := now + rand
      timestamp := jsToISOString now
      action := action
      file := file
      secretCount := secrets.length }
  let log := entry :: activityLog
  (entry, if log.length > MAX_ACTIVITY_ENTRIES then log.take MAX_ACTIVITY_ENTRIES else log)

/-- `data.lastModified?.getTime() || 0` (src/unnamed/part_000 line 363).
On a `Date` this yields the epoch milliseconds; on the ISO *string* the
evolved reader actually stores, the property access `getTime` yields
`undefined` and the call throws a `TypeError`. -/
def jsGetTime : TimeRepr → Except JsError Nat
  | TimeRepr.date ms => Except.ok ms
  | TimeRepr.iso _ =>
    Except.error (JsError.typeError "data.lastModified.getTime is not a function")

/-- The per-file comparison record that `pollSecrets` hashes
(src/unnamed/part_000 lines 360-365). -/
structure PollRec where
  filename : String
  content : String
  lastModified : Nat
  size : Nat
deriving DecidableEq, Repr

/-- `JSON.stringify` escaping for the string fields of a `PollRec`
(quote, backslash and the common control characters; no other characters
occurring in this development need escaping). -/
def jsonEscapeChar (c : Char) : String :=
  if c = '\\' then "\\\\"
  else if c = '"' then "\\\""
  else if c = '\n' then "\\n"
  else if c = '\t' then "\\t"
  else if c = '\r' then "\\r"
  else String.singleton c

def jsonEscape (s : String) : String :=
  String.join (s.toList.map jsonEscapeChar)

def pollRecJson (r : PollRec) : String :=
  "\x7b\"filename\":\"" ++ jsonEscape r.filename ++
    "\",\"content\":\"" ++ jsonEscape r.content ++
    "\",\"lastModified\":" ++ toString r.lastModified ++
    ",\"size\":" ++ toString r.size ++ "\x7d"

/-- `JSON.stringify(secretData)` (src/unnamed/part_000 line 366). -/
def jsonStringifyPollRecs (rs : List PollRec) : String :=
  "[" ++ String.intercalate "," (rs.map pollRecJson) ++ "]"

/-- The mutable monitoring state of src/unnamed/part_000: the activity log
(line 22), `lastSecretHash` (line 353, initially the empty string) and the
`lastInodeData` map (line 456, initially empty). -/
structure MonState where
  activityLog : List ActivityEntry
  lastSecretHash : String
  lastInodeData : List (String × String)
deriving DecidableEq, Repr

def initMonState : MonState :=
  { activityLog := [], lastSecretHash := "", lastInodeData := [] }

/-- A message pushed to all subscribers with `io.emit`. -/
inductive Broadcast
  | secretsUpdate (action : String) (file : String) (secrets : List (String × SecretEntry))
  | activityUpdate (activity : List ActivityEntry) (newEntry : ActivityEntry)
deriving DecidableEq, Repr

/-- `true` exactly for the full-snapshot pushes (`secrets-update`). -/
def isSecretsUpdate : Broadcast → Bool
  | Broadcast.secretsUpdate _ _ _ => true
  | _ => false

def countSecretsUpdates (bs : List Broadcast) : Nat :=
  bs.countP isSecretsUpdate

/-- The recheck signals modelled here: the chokidar file events
(src/unnamed/part_000 lines 257-311), a `pollSecrets` interval tick
(line 562) and a `monitorInodes` interval tick (line 564). -/
inductive Event
  | watchAdd (filePath : String)
  | watchChange (filePath : String)
  | watchUnlink (filePath : String)
  | pollTick
  | inodeTick
deriving DecidableEq, Repr

/-- `path.basename`: the characters after the last `/` (defined
structurally so that it evaluates by kernel reduction). -/
def basenameAux : List Char → List Char → List Char
  | [], acc => acc.reverse
  | c :: cs, acc => if c = '/' then basenameAux cs [] else basenameAux cs (c :: acc)

def basename (p : String) : String :=
  String.mk (basenameAux p.data [])

/-- Result of one event callback: the successor state, the broadcasts it
emitted (in order), and how many times it invoked
`readSecretsFromDirectory`. -/
structure HandlerResult where
  state : MonState
  out : List Broadcast
  reads : Nat
deriving DecidableEq, Repr

/-- The shared body of the watcher's `add`/`change`/`unlink` handlers
(src/unnamed/part_000 lines 257-311; the three blocks are identical up to
the action string, `'add'`/`'change'`/`'remove'`): re-read the directory,
append an activity entry, then emit one `secrets-update` and one
`activity-update` to all subscribers. -/
def handleWatcherEvent (dir : DirState) (now rand : Nat) (st : MonState)
    (action filePath : String) : HandlerResult :=
  let secrets := readSecretsFromDirectory dir
  let r := addActivityEntry now rand action (basename filePath) secrets st.activityLog
  { state := { st with activityLog := r.2 }
    out := [Broadcast.secretsUpdate action (basename filePath) secrets,
            Broadcast.activityUpdate (r.2.take 10) r.1]
    reads := 1 }

/-- `pollSecrets` (src/unnamed/part_000 lines 358-387): reads the
directory, maps every entry to a `PollRec` — calling
`data.lastModified?.getTime()`, which throws on the ISO strings the evolved
reader stores — hashes the records with `JSON.stringify`, and, when the
hash differs from a non-empty `lastSecretHash`, appends an activity entry
and emits both update messages. The new hash is stored in either case.
A throw escapes the `setInterval` callback uncaught. -/
def pollSecrets (dir : DirState) (now rand : Nat) (st : MonState) :
    Except JsError HandlerResult := do
  let secrets := readSecretsFromDirectory dir
  let secretData ← secrets.mapM (fun p => do
    let t ← jsGetTime p.2.lastModified
    pure { filename := p.1, content := p.2.content, lastModified := t,
           size := p.2.size : PollRec })
  let currentHash := jsonStringifyPollRecs secretData
  if currentHash != st.lastSecretHash && st.lastSecretHash != "" then
    let r := addActivityEntry now rand "fast-poll" "content-change" secrets st.activityLog
    pure { state := { st with activityLog := r.2, lastSecretHash := currentHash }
           out := [Broadcast.secretsUpdate "fast-poll" "content-change" secrets,
                   Broadcast.activityUpdate (r.2.take 10) r.1]
           reads := 1 }
  else
    pure { state := { st with lastSecretHash := currentHash }, out := [], reads := 1 }

/-- `Map.prototype.set` on the assoc-list model of `lastInodeData`
(insertion order preserved, existing key updated in place). -/
def mapSet : List (String × String) → String → String → List (String × String)
  | [], k, v => [(k, v)]
  | (k', v') :: rest, k, v =>
    if k' = k then (k, v) :: rest else (k', v') :: mapSet rest k v

/-- The `files.forEach` of `monitorInodes` (src/unnamed/part_000 lines
464-480): per file, `statSync` inside its own `try` (a throw skips just
that file), build the string `` `${ino}_${mtime}_${size}` ``, flag a change
when a previous value exists and differs, and store the current value. -/
def inodeScan : List DirEntry → List (String × String) → Bool →
    List (String × String) × Bool
  | [], m, changed => (m, changed)
  | e :: rest, m, changed =>
    match e.stats with
    | none => inodeScan rest m changed
    | some st =>
      let currentInode :=
        toString st.ino ++ "_" ++ toString st.mtimeMs ++ "_" ++ toString st.size
      let changed' :=
        match m.lookup e.name with
        | some lastInode => changed || (lastInode != currentInode)
        | none => changed
      inodeScan rest (mapSet m e.name currentInode) changed'

/-- `monitorInodes` (src/unnamed/part_000 lines 458-503): when the
directory exists, scan all names' inode strings; if any changed, re-read
the directory, append an activity entry and emit both update messages. -/
def monitorInodes (dir : DirState) (now rand : Nat) (st : MonState) : HandlerResult :=
  match dir with
  | none => { state := st, out := [], reads := 0 }
  | some files =>
    let scanned := inodeScan files st.lastInodeData false
    if scanned.2 then
      let secrets := readSecretsFromDirectory dir
      let r := addActivityEntry now rand "inode-change" "file-metadata" secrets st.activityLog
      { state := { st with lastInodeData := scanned.1, activityLog := r.2 }
        out := [Broadcast.secretsUpdate "inode-change" "file-metadata" secrets,
                Broadcast.activityUpdate (r.2.take 10) r.1]
        reads := 1 }
    else
      { state := { st with lastInodeData := scanned.1 }, out := [], reads := 0 }

/-- Dispatch of one signal to its callback. The watcher handlers and the
inode monitor never throw; `pollSecrets` can. -/
def handleEvent (dir : DirState) (now rand : Nat) (st : MonState) :
    Event → Except JsError HandlerResult
  | Event.watchAdd p => Except.ok (handleWatcherEvent dir now rand st "add" p)
  | Event.watchChange p => Except.ok (handleWatcherEvent dir now rand st "change" p)
  | Event.watchUnlink p => Except.ok (handleWatcherEvent dir now rand st "remove" p)
  | Event.pollTick => pollSecrets dir now rand st
  | Event.inodeTick => Except.ok (monitorInodes dir now rand st)

/-- Run a sequence of signals against a fixed directory state, threading
the monitoring state and concatenating broadcasts and reader-invocation
counts. An uncaught throw aborts the run (in Node it kills the process). -/
def runEvents (dir : DirState) (now rand : Nat) :
    MonState → List Event → Except JsError (MonState × List Broadcast × Nat)
  | st, [] => Except.ok (st, [], 0)
  | st, e :: es =>
    match handleEvent dir now rand st e with
    | Except.error err => Except.error err
    | Except.ok r =>
      match runEvents dir now rand r.state es with
      | Except.error err => Except.error err
      | Except.ok rest => Except.ok (rest.1, r.out ++ rest.2.1, r.reads + rest.2.2)

/-- A message sent to one newly connected socket. -/
inductive ConnectMsg
  | secretsUpdate (timestamp : String) (secrets : List (String × SecretEntry))
  | activityUpdate (timestamp : String) (activity : List ActivityEntry)
deriving DecidableEq, Repr

/-- The `io.on('connection')` handler (src/unnamed/part_000 lines 172-191):
immediately emit the freshly read snapshot, then the first 10 activity
entries, to the new socket. These are the only messages the handler sends;
any further events reach the socket afterwards. -/
def onConnection (dir : DirState) (now : Nat) (activityLog : List ActivityEntry) :
    List ConnectMsg :=
  let currentSecrets := readSecretsFromDirectory dir
  [ConnectMsg.secretsUpdate (jsToISOString now) currentSecrets,
   ConnectMsg.activityUpdate (jsToISOString now) (activityLog.take 10)]

/-! ### Concrete directory states used by counterexamples and witnesses -/

/-- A one-file directory: `api_key` containing `abc`. -/
def dirA0 : DirState :=
  some [{ name := "api_key", isSymlink := false
          stats := some { isFile := true, size := 3, mtimeMs := 1000, ino := 11 }
          content := "abc", readErr := none }]

/-- The same directory after one underlying change: `api_key` now contains
`xyz` (fresh inode and mtime, as a Kubernetes atomic swap produces). -/
def dirA1 : DirState :=
  some [{ name := "api_key", isSymlink := false
          stats := some { isFile := true, size := 3, mtimeMs := 2000, ino := 12 }
          content := "xyz", readErr := none }]

/-- A directory whose first entry makes `statSync` throw (a dangling
symlink) and whose second entry is a healthy regular file. -/
def dirB : DirState :=
  some [{ name := "broken", isSymlink := true, stats := none
          content := "", readErr := none },
        { name := "healthy", isSymlink := false
          stats := some { isFile := true, size := 2, mtimeMs := 3000, ino := 21 }
          content := "ok", readErr := none }]

/-- A healthy regular file named `p`. -/
def entryGoodP : DirEntry :=
  { name := "p", isSymlink := false
    stats := some { isFile := true, size := 2, mtimeMs := 4000, ino := 31 }
    content := "vp", readErr := none }

/-- A healthy regular file named `r`. -/
def entryGoodR : DirEntry :=
  { name := "r", isSymlink := false
    stats := some { isFile := true, size := 2, mtimeMs := 4500, ino := 33 }
    content := "vr", readErr := none }

/-- Stats of a file whose content read will fail. -/
def sttQ : Stats := { isFile := true, size := 5, mtimeMs := 5000, ino := 32 }

/-! ### Helper lemmas -/

/-- `addActivityEntry` always leaves the log equal to the first
`MAX_ACTIVITY_ENTRIES` elements of the new entry consed onto the old log
(when no eviction happens, `take` is the identity). -/
theorem addActivityEntry_log_eq (now rand : Nat) (action file : String)
    (secrets : Snapshot) (log : List ActivityEntry) :
    (addActivityEntry now rand action file secrets log).2 =
      ((addActivityEntry now rand action file secrets log).1 :: log).take
        MAX_ACTIVITY_ENTRIES := by
  simp only [addActivityEntry]
  split
  · rfl
  · next h => exact (List.take_of_length_le (Nat.le_of_not_lt h)).symm

theorem countSecretsUpdates_nil : countSecretsUpdates [] = 0 := rfl

theorem countSecretsUpdates_updatePair (a f : String)
    (s : List (String × SecretEntry)) (l : List ActivityEntry) (e : ActivityEntry) :
    countSecretsUpdates
      [Broadcast.secretsUpdate a f s, Broadcast.activityUpdate l e] = 1 := rfl

/-- Scanning a concatenation whose first part never fails `statSync`
splits into the two scans. -/
theorem scanSecretEntries_append (pre l : List DirEntry)
    (h : ∀ e ∈ pre, e.stats.isSome = true) :
    scanSecretEntries (pre ++ l) =
      ((scanSecretEntries pre).1 ++ (scanSecretEntries l).1,
        (scanSecretEntries l).2) := by
  induction pre with
  | nil => simp [scanSecretEntries]
  | cons e rest ih =>
    have he : e.stats.isSome = true := h e (by simp)
    obtain ⟨st, hst⟩ := Option.isSome_iff_exists.mp he
    have hrest : ∀ e' ∈ rest, e'.stats.isSome = true :=
      fun e' h' => h e' (by simp [h'])
    simp only [List.cons_append, scanSecretEntries, hst]
    cases hf : st.isFile with
    | false =>
      simp only [Bool.false_eq_true, if_false]
      exact ih hrest
    | true => simp [ih hrest]

/-! ### Claim theorems -/

/-- C8: every append to the activity log keeps it newest-first (the new
entry becomes the head), never longer than `MAX_ACTIVITY_ENTRIES` (100),
and on overflow evicts exactly the oldest entries: the result is the first
100 elements of the new entry consed onto the old log, the remainder being
a suffix (the oldest entries). -/
theorem activity_log_bounded_newest_first (now rand : Nat) (action file : String)
    (secrets : Snapshot) (log : List ActivityEntry) :
    (addActivityEntry now rand action file secrets log).2 =
      ((addActivityEntry now rand action file secrets log).1 :: log).take
        MAX_ACTIVITY_ENTRIES ∧
    (addActivityEntry now rand action file secrets log).2.length ≤
      MAX_ACTIVITY_ENTRIES ∧
    (addActivityEntry now rand action file secrets log).2.head? =
      some (addActivityEntry now rand action file secrets log).1 ∧
    ∃ dropped,
      (addActivityEntry now rand action file secrets log).1 :: log =
        (addActivityEntry now rand action file secrets log).2 ++ dropped := by
  have h := addActivityEntry_log_eq now rand action file secrets log
  refine ⟨h, ?_, ?_, ?_⟩
  · rw [h, List.length_take]
    exact Nat.min_le_left _ _
  · rw [h, show MAX_ACTIVITY_ENTRIES = 99 + 1 from rfl, List.take_succ_cons]
    rfl
  · refine ⟨((addActivityEntry now rand action file secrets log).1 :: log).drop
      MAX_ACTIVITY_ENTRIES, ?_⟩
    rw [h, List.take_append_drop]

/-- C6 counterexample: two detected-change cycles recording the same
`(action, file)` pair four seconds apart (well inside any tens-of-seconds
deduplication window) leave TWO separate activity entries with distinct
timestamps, not one entry updated in place — `addActivityEntry` performs
no deduplication at all. -/
theorem same_pair_two_entries :
    ((addActivityEntry 5000 0 "change" "api_key" (readSecretsFromDirectory dirA1)
        (addActivityEntry 1000 0 "change" "api_key"
          (readSecretsFromDirectory dirA1) []).2).2).length = 2 ∧
    ((addActivityEntry 5000 0 "change" "api_key" (readSecretsFromDirectory dirA1)
        (addActivityEntry 1000 0 "change" "api_key"
          (readSecretsFromDirectory dirA1) []).2).2).map
      (fun e => (e.action, e.file)) =
        [("change", "api_key"), ("change", "api_key")] ∧
    ((addActivityEntry 5000 0 "change" "api_key" (readSecretsFromDirectory dirA1)
        (addActivityEntry 1000 0 "change" "api_key"
          (readSecretsFromDirectory dirA1) []).2).2).map ActivityEntry.timestamp =
      ["1970-01-01T00:00:05.000Z", "1970-01-01T00:00:01.000Z"] := by
  refine ⟨rfl, rfl, rfl⟩

/-- C6 (amended): the activity log has no deduplication window — every
detected-change cycle for a given `(action, file)` pair unconditionally
prepends a fresh entry, so two cycles for the same pair always leave two
separate entries (the two most recent entries of the log), regardless of
how close together their timestamps are. -/
theorem activity_log_no_dedup (n1 r1 n2 r2 : Nat) (a f : String)
    (s1 s2 : Snapshot) (log : List ActivityEntry) :
    ((addActivityEntry n2 r2 a f s2
        (addActivityEntry n1 r1 a f s1 log).2).2).take 2 =
      [{ id := n2 + r2, timestamp := jsToISOString n2, action := a, file := f,
         secretCount := s2.length },
       { id := n1 + r1, timestamp := jsToISOString n1, action := a, file := f,
         secretCount := s1.length }] := by
  rw [addActivityEntry_log_eq n2 r2 a f s2, addActivityEntry_log_eq n1 r1 a f s1]
  rfl

/-- C4: `pollSecrets` does not survive a tick over a non-empty directory:
`readSecretsFromDirectory` stores `lastModified` as an ISO string, so
`data.lastModified?.getTime()` is a call on `undefined` and throws an
uncaught `TypeError` out of the `setInterval` callback. Evaluated here on a
directory holding a single readable file. -/
theorem poll_tick_throws_on_nonempty_directory :
    pollSecrets dirA0 1000 0 initMonState =
      Except.error
        (JsError.typeError "data.lastModified.getTime is not a function") := by
  rfl

/-- C3: the change detector of `pollSecrets` cannot honour its contract on
any non-empty snapshot: starting from the baseline hash of an empty
directory (`"[]"`), a poll tick over a directory now holding one file must
report a change (the key set grew), but instead the hash computation throws
a `TypeError` while calling `getTime` on the ISO-string `lastModified`. -/
theorem change_detector_throws_on_nonempty_snapshot :
    handleEvent dirA1 2000 0
        { activityLog := [], lastSecretHash := "[]", lastInodeData := [] }
        Event.pollTick =
      Except.error
        (JsError.typeError "data.lastModified.getTime is not a function") := by
  rfl

/-- The representation change between the two readers: a raw `Date`
becomes its ISO-string form; anything else is untouched. -/
def isoOfRepr : TimeRepr → TimeRepr
  | TimeRepr.date ms => TimeRepr.iso (jsToISOString ms)
  | t => t

/-- The evolved scan is the original scan with every entry's
`lastModified` pushed through `isoOfRepr`; the abort behaviour is
identical. -/
theorem scanSecretEntries_eq_orig (l : List DirEntry) :
    scanSecretEntries l =
      ((scanSecretEntriesOrig l).1.map
          (fun p => (p.1, { p.2 with lastModified := isoOfRepr p.2.lastModified })),
        (scanSecretEntriesOrig l).2) := by
  induction l with
  | nil => rfl
  | cons e rest ih =>
    simp only [scanSecretEntries, scanSecretEntriesOrig]
    cases hst : e.stats with
    | none => simp
    | some st =>
      cases hf : st.isFile with
      | false =>
        simp only [hf, Bool.false_eq_true, if_false]
        exact ih
      | true =>
        cases hr : e.readErr with
        | none => simp [hf, hr, ih, isoOfRepr]
        | some msg => simp [hf, hr, ih, isoOfRepr]

/-- C10 counterexample: on a directory holding the single readable file
`api_key`, the two readers produce snapshots that are NOT identical — they
agree on the key set, content, size and error flag, but the original
stores `lastModified` as the raw mtime Date while the evolved version
stores its ISO-string rendering, so the two `lastModified` values are
differently represented and the snapshots compare unequal. -/
theorem readers_lastModified_repr_differs :
    List.lookup "api_key" (readSecretsFromDirectoryOrig dirA0) =
      some { content := "abc", lastModified := TimeRepr.date 1000,
             size := 3, error := false } ∧
    List.lookup "api_key" (readSecretsFromDirectory dirA0) =
      some { content := "abc",
             lastModified := TimeRepr.iso "1970-01-01T00:00:01.000Z",
             size := 3, error := false } ∧
    readSecretsFromDirectoryOrig dirA0 ≠ readSecretsFromDirectory dirA0 := by
  refine ⟨rfl, rfl, by decide⟩

/-- C10 (amended): for every directory state the two readers are
equivalent up to the `lastModified` representation — same key set in the
same order and, for each key, equal content, size and error flag, the
evolved entry's `lastModified` being exactly the ISO-string form of the
original entry's Date. -/
theorem readers_agree_up_to_time_repr (d : DirState) :
    readSecretsFromDirectory d =
      (readSecretsFromDirectoryOrig d).map
        (fun p => (p.1, { p.2 with lastModified := isoOfRepr p.2.lastModified })) ∧
    (readSecretsFromDirectory d).map Prod.fst =
      (readSecretsFromDirectoryOrig d).map Prod.fst := by
  have hmain : readSecretsFromDirectory d =
      (readSecretsFromDirectoryOrig d).map
        (fun p => (p.1, { p.2 with lastModified := isoOfRepr p.2.lastModified })) := by
    cases d with
    | none => rfl
    | some files =>
      simp only [readSecretsFromDirectory, readSecretsFromDirectoryOrig,
        scanSecretEntries_eq_orig files]
  exact ⟨hmain, by rw [hmain, List.map_map]; rfl⟩

/-- C1 counterexample: one real underlying change to `api_key` (content
`abc` → `xyz`, fresh inode/mtime as a Kubernetes swap produces), observed
by two signal sources — the chokidar `change` handler and a `monitorInodes`
tick — is broadcast to all subscribers TWICE, not exactly once: the sources
do not coordinate. (The first run only primes the inode map, emitting
nothing.) -/
theorem single_change_double_broadcast :
    (do
      let r1 ← runEvents dirA0 1000 0 initMonState [Event.inodeTick]
      let r2 ← runEvents dirA1 2000 0 r1.1
        [Event.watchChange "/secrets/api_key", Event.inodeTick]
      pure (countSecretsUpdates r2.2.1) : Except JsError Nat) = Except.ok 2 := by
  rfl

/-- C1 (amended): broadcasts happen once per observing source, not once
per change — every watcher file event (`add`/`change`/`unlink`)
unconditionally emits exactly one snapshot broadcast, and an inode-monitor
tick emits at most one more, with no cross-source deduplication, so a
change observed by several sources is broadcast several times. -/
theorem broadcast_once_per_observing_source (dir : DirState) (now rand : Nat)
    (st : MonState) (p : String) :
    (∃ r, handleEvent dir now rand st (Event.watchAdd p) = Except.ok r ∧
      countSecretsUpdates r.out = 1) ∧
    (∃ r, handleEvent dir now rand st (Event.watchChange p) = Except.ok r ∧
      countSecretsUpdates r.out = 1) ∧
    (∃ r, handleEvent dir now rand st (Event.watchUnlink p) = Except.ok r ∧
      countSecretsUpdates r.out = 1) ∧
    countSecretsUpdates (monitorInodes dir now rand st).out ≤ 1 := by
  refine ⟨⟨_, rfl, rfl⟩, ⟨_, rfl, rfl⟩, ⟨_, rfl, rfl⟩, ?_⟩
  cases dir with
  | none => exact Nat.zero_le 1
  | some files =>
    simp only [monitorInodes]
    split
    · exact Nat.le_of_eq (countSecretsUpdates_updatePair _ _ _ _ _)
    · exact Nat.zero_le 1

/-- C2 counterexample: a burst of two recheck signals (two chokidar
`change` events for the same file, arbitrarily close together) invokes
`readSecretsFromDirectory` twice, not once — there is no debouncing
anywhere in the code, so signal count, not burst count, drives the
Snapshot Reader. -/
theorem burst_of_two_signals_two_reads :
    (runEvents dirA1 2000 0 initMonState
        [Event.watchChange "/secrets/api_key",
         Event.watchChange "/secrets/api_key"]).map (fun r => r.2.2) =
      Except.ok 2 := by
  rfl

/-- C2 (amended): every watcher recheck signal immediately invokes the
Snapshot Reader exactly once, so N signals — however tightly bunched —
cause exactly N `readSecretsFromDirectory` invocations. -/
theorem reader_invoked_once_per_signal (dir : DirState) (now rand : Nat)
    (paths : List String) :
    ∀ st : MonState, ∃ st' bs,
      runEvents dir now rand st (paths.map Event.watchChange) =
        Except.ok (st', bs, paths.length) := by
  induction paths with
  | nil => exact fun st => ⟨st, [], rfl⟩
  | cons p ps ih =>
    intro st
    obtain ⟨st', bs, h⟩ := ih (handleWatcherEvent dir now rand st "change" p).state
    refine ⟨st', (handleWatcherEvent dir now rand st "change" p).out ++ bs, ?_⟩
    simp only [List.map_cons, runEvents, handleEvent, h, List.length_cons]
    have hr : (handleWatcherEvent dir now rand st "change" p).reads = 1 := rfl
    rw [hr, Nat.add_comm]

/-- C5 counterexample: in a directory whose first entry fails `statSync`
(a dangling symlink) and whose second entry is a perfectly healthy file,
the failing entry is NOT recorded with `error=true` — it is absent — and
the healthy remaining entry is NOT scanned either: `statSync` sits outside
the per-entry `try`, so its throw aborts the whole `forEach` and the
directory-level `catch` returns only what was accumulated before it. -/
theorem stat_failure_aborts_scan :
    readSecretsFromDirectory dirB = [] ∧
    List.lookup "broken" (readSecretsFromDirectory dirB) = none ∧
    List.lookup "healthy" (readSecretsFromDirectory dirB) = none :=
  ⟨rfl, rfl, rfl⟩

/-- C5 (amended): the Snapshot Reader never throws (the directory-level
`catch` converts any escape into the entries accumulated so far), and the
two entry-failure modes behave differently: an entry whose *content read*
fails is recorded with `error=true` and the synthetic message, and all
remaining entries are still scanned; an entry whose *stat* fails aborts the
scan, omitting that entry and every entry after it. -/
theorem read_error_recorded_stat_error_aborts
    (pre rest : List DirEntry) (nm content msg : String) (sl : Bool) (stt : Stats)
    (hpre : ∀ e ∈ pre, e.stats.isSome = true)
    (hfile : stt.isFile = true) :
    readSecretsFromDirectory
        (some (pre ++ { name := nm, isSymlink := sl, stats := some stt,
                        content := content, readErr := some msg : DirEntry } :: rest)) =
      (scanSecretEntries pre).1 ++
        (nm, { content := "Error reading file: " ++ msg,
               lastModified := TimeRepr.iso (jsToISOString stt.mtimeMs),
               size := stt.size, error := true }) :: (scanSecretEntries rest).1 ∧
    readSecretsFromDirectory
        (some (pre ++ { name := nm, isSymlink := sl, stats := none,
                        content := content, readErr := some msg : DirEntry } :: rest)) =
      (scanSecretEntries pre).1 := by
  constructor
  · show (scanSecretEntries (pre ++ _ :: rest)).1 = _
    rw [scanSecretEntries_append pre _ hpre]
    simp [scanSecretEntries, hfile]
  · show (scanSecretEntries (pre ++ _ :: rest)).1 = _
    rw [scanSecretEntries_append pre _ hpre]
    simp [scanSecretEntries]

/-- C5 witness: the amended behaviour evaluated on a concrete directory —
a healthy file `p`, then `q` whose content read fails with `EACCES`, then a
healthy file `r` (and, in the second conjunct, the same shape with `q`
failing at `statSync` instead). -/
theorem read_error_recorded_stat_error_aborts_witness :
    (readSecretsFromDirectory
        (some ([entryGoodP] ++
          { name := "q", isSymlink := false, stats := some sttQ, content := "c",
            readErr := some "EACCES: permission denied" : DirEntry } :: [entryGoodR])) =
      (scanSecretEntries [entryGoodP]).1 ++
        ("q", { content := "Error reading file: " ++ "EACCES: permission denied",
                lastModified := TimeRepr.iso (jsToISOString sttQ.mtimeMs),
                size := sttQ.size, error := true }) ::
          (scanSecretEntries [entryGoodR]).1) ∧
    (readSecretsFromDirectory
        (some ([entryGoodP] ++
          { name := "q", isSymlink := false, stats := none, content := "c",
            readErr := some "EACCES: permission denied" : DirEntry } :: [entryGoodR])) =
      (scanSecretEntries [entryGoodP]).1) :=
  read_error_recorded_stat_error_aborts [entryGoodP] [entryGoodR] "q" "c"
    "EACCES: permission denied" false sttQ (by decide) (by decide)

/-- Every name looked up successfully in a scanned snapshot comes from a
directory entry that `statSync` resolved to a regular file. -/
theorem lookup_scan_file (files : List DirEntry) (nm : String) (se : SecretEntry)
    (h : List.lookup nm (scanSecretEntries files).1 = some se) :
    ∃ e ∈ files, e.name = nm ∧ ∃ stt, e.stats = some stt ∧ stt.isFile = true := by
  induction files with
  | nil => simp [scanSecretEntries, List.lookup] at h
  | cons e rest ih =>
    cases hst : e.stats with
    | none => simp [scanSecretEntries, hst, List.lookup] at h
    | some st =>
      cases hf : st.isFile with
      | false =>
        simp only [scanSecretEntries, hst, hf, Bool.false_eq_true, if_false] at h
        obtain ⟨e', he', hp⟩ := ih h
        exact ⟨e', List.mem_cons_of_mem _ he', hp⟩
      | true =>
        simp only [scanSecretEntries, hst, hf, if_true] at h
        rw [List.lookup] at h
        cases hbeq : nm == e.name with
        | true =>
          exact ⟨e, List.mem_cons_self e rest, (eq_of_beq hbeq).symm, st, hst, hf⟩
        | false =>
          rw [hbeq] at h
          obtain ⟨e', he', hp⟩ := ih h
          exact ⟨e', List.mem_cons_of_mem _ he', hp⟩

/-- C7: for every watched-directory state, only regular files and symlinks
resolving to regular files yield Secret Entries — every name present in the
reader's snapshot comes from a directory entry whose (symlink-following)
stat succeeded and reported a regular file, so no subdirectory and no
symlink-to-directory ever appears as a Secret Entry. -/
theorem only_regular_files_yield_entries (d : DirState) (nm : String)
    (se : SecretEntry)
    (h : List.lookup nm (readSecretsFromDirectory d) = some se) :
    ∃ e ∈ d.getD [], e.name = nm ∧ ∃ stt, e.stats = some stt ∧ stt.isFile = true := by
  cases d with
  | none => simp [readSecretsFromDirectory, List.lookup] at h
  | some files => exact lookup_scan_file files nm se h

/-- C7 witness: on the concrete one-file directory, the looked-up entry
`api_key` indeed stems from a regular file. -/
theorem only_regular_files_yield_entries_witness :
    ∃ e ∈ dirA0.getD [], e.name = "api_key" ∧
      ∃ stt, e.stats = some stt ∧ stt.isFile = true :=
  only_regular_files_yield_entries dirA0 "api_key"
    { content := "abc", lastModified := TimeRepr.iso "1970-01-01T00:00:01.000Z",
      size := 3, error := false }
    (by decide)

/-- C9: on every new subscriber connection the handler emits, before
anything else, exactly the freshly read current snapshot followed by the 10
most recent activity entries; in particular, whenever the current read
yields a non-empty snapshot, the very first message a late joiner receives
carries that non-empty snapshot — never an empty state. -/
theorem connection_sends_snapshot_and_activity (dir : DirState) (now : Nat)
    (log : List ActivityEntry) :
    onConnection dir now log =
      [ConnectMsg.secretsUpdate (jsToISOString now) (readSecretsFromDirectory dir),
       ConnectMsg.activityUpdate (jsToISOString now) (log.take 10)] ∧
    (readSecretsFromDirectory dir ≠ [] →
      ∃ s, s ≠ [] ∧ (onConnection dir now log).head? =
        some (ConnectMsg.secretsUpdate (jsToISOString now) s)) :=
  ⟨rfl, fun h => ⟨readSecretsFromDirectory dir, h, rfl⟩⟩

/-- C9 witness: a subscriber connecting while `dirA0` holds data receives a
non-empty snapshot as its first message. -/
theorem connection_sends_snapshot_and_activity_witness :
    ∃ s, s ≠ [] ∧ (onConnection dirA0 1000 []).head? =
      some (ConnectMsg.secretsUpdate (jsToISOString 1000) s) :=
  (connection_sends_snapshot_and_activity dirA0 1000 []).2 (by decide)
